import Mathlib

set_option maxRecDepth 8192

/-! Shallow embedding of the django-tailwind-cli repository:
src/django_tailwind_cli/config.py (configuration resolver) and
src/django_tailwind_cli/management/commands/tailwind.py (binary download,
source-CSS bootstrap, process supervisor). Paths are modelled as strings,
the Django settings object as an explicit record, and the ambient effects
(platform detection, network, filesystem) as explicit oracle inputs. -/

/-- Lower-case one ASCII character, as Python str.lower does on ASCII input. -/
def lowerChar (c : Char) : Char :=
  if 'A' ≤ c ∧ c ≤ 'Z' then Char.ofNat (c.toNat + 32) else c

/-- Python str.lower, restricted to the ASCII strings this program handles. -/
def lowerStr (s : String) : String :=
  String.mk (s.toList.map lowerChar)

/-- Python str.split(sep) for a one-character separator; keeps empty pieces. -/
def splitCharAux (sep : Char) : List Char → List Char → List String
  | [], acc => [String.mk acc.reverse]
  | c :: cs, acc =>
    if c = sep then String.mk acc.reverse :: splitCharAux sep cs []
    else splitCharAux sep cs (c :: acc)

def splitChar (s : String) (sep : Char) : List String :=
  splitCharAux sep s.toList []

/-- Python str.rstrip("/"): drop every trailing slash. -/
def rstripSlashes (s : String) : String :=
  String.mk ((s.toList.reverse.dropWhile fun c => c = '/').reverse)

/-- Python str.replace(c, "") for a one-character pattern: drop every occurrence. -/
def removeChar (s : String) (c0 : Char) : String :=
  String.mk (s.toList.filter fun c => c ≠ c0)

def joinSep (sep : String) : List String → String
  | [] => ""
  | [x] => x
  | x :: y :: xs => x ++ sep ++ joinSep sep (y :: xs)

/-- pathlib PurePosixPath normalization: collapse duplicate slashes and single-dot
components and drop trailing slashes; the empty path becomes ".". -/
def pathNorm (s : String) : String :=
  let comps := (splitChar s '/').filter fun c => !(c == "") && !(c == ".")
  let body := joinSep "/" comps
  if s.toList.head? = some '/' then "/" ++ body
  else if comps.isEmpty then "." else body

/-- pathlib Path(a) / b: an absolute right operand replaces the left one. -/
def pathJoin (a b : String) : String :=
  if b.toList.head? = some '/' then pathNorm b else pathNorm (a ++ "/" ++ b)

/-- pathlib Path.parent. -/
def parentDir (p : String) : String :=
  let comps := ((splitChar p '/').filter fun c => !(c == "") && !(c == ".")).dropLast
  let body := joinSep "/" comps
  if p.toList.head? = some '/' then "/" ++ body
  else if comps.isEmpty then "." else body

/-- semver.Version: a parsed semantic version. Build metadata is kept but ignored
by comparisons, exactly as in python-semver. -/
structure Version where
  major : Nat
  minor : Nat
  patch : Nat
  prerelease : Option String
  buildMeta : Option String
deriving DecidableEq, Repr

def digitsToNat (ds : List Char) : Nat :=
  ds.foldl (fun n c => 10 * n + (c.toNat - 48)) 0

/-- A numeric identifier of the SemVer grammar: nonempty, no leading zero
(the caller guarantees the characters are digits). -/
def validNumCore : List Char → Bool
  | [] => false
  | c :: rest => rest.isEmpty || c != '0'

def isIdentChar (c : Char) : Bool := c.isDigit || c.isAlpha || c == '-'

/-- One dot-separated prerelease identifier: [0-9A-Za-z-]+, and an all-digit
identifier must not have a leading zero. -/
def validPreIdent (s : String) : Bool :=
  let cs := s.toList
  !cs.isEmpty && cs.all isIdentChar && (!(cs.all Char.isDigit) || validNumCore cs)

/-- One dot-separated build identifier: [0-9A-Za-z-]+. -/
def validBuildIdent (s : String) : Bool :=
  let cs := s.toList
  !cs.isEmpty && cs.all isIdentChar

def validPrerelease (s : String) : Bool := (splitChar s '.').all validPreIdent
def validBuildMeta (s : String) : Bool := (splitChar s '.').all validBuildIdent

/-- The optional -prerelease and +build tail of the SemVer grammar. -/
def parseSuffix (mj mi pa : Nat) : List Char → Option Version
  | [] => some ⟨mj, mi, pa, none, none⟩
  | '-' :: rest =>
    let preCs := rest.takeWhile fun c => c != '+'
    let r2 := rest.dropWhile fun c => c != '+'
    let pre := String.mk preCs
    if !validPrerelease pre then none
    else
      match r2 with
      | [] => some ⟨mj, mi, pa, some pre, none⟩
      | _ :: bcs =>
        let b := String.mk bcs
        if validBuildMeta b then some ⟨mj, mi, pa, some pre, some b⟩ else none
  | '+' :: bcs =>
    let b := String.mk bcs
    if validBuildMeta b then some ⟨mj, mi, pa, none, some b⟩ else none
  | _ => none

/-- semver.Version.parse with minor and patch required; a ValueError is modelled
as none. Follows the anchored SemVer regular expression of python-semver. -/
def Version.parse (s : String) : Option Version :=
  let cs := s.toList
  let mj := cs.takeWhile Char.isDigit
  let r1 := cs.dropWhile Char.isDigit
  if !validNumCore mj then none
  else
    match r1 with
    | '.' :: r2 =>
      let mi := r2.takeWhile Char.isDigit
      let r3 := r2.dropWhile Char.isDigit
      if !validNumCore mi then none
      else
        match r3 with
        | '.' :: r4 =>
          let pa := r4.takeWhile Char.isDigit
          let r5 := r4.dropWhile Char.isDigit
          if !validNumCore pa then none
          else parseSuffix (digitsToNat mj) (digitsToNat mi) (digitsToNat pa) r5
        | _ => none
    | _ => none

def cmpChars : List Char → List Char → Ordering
  | [], [] => .eq
  | [], _ :: _ => .lt
  | _ :: _, [] => .gt
  | a :: ra, b :: rb =>
    match compare a.toNat b.toNat with
    | .eq => cmpChars ra rb
    | o => o

/-- python-semver comparison of one prerelease identifier: numeric identifiers
compare numerically and sort before alphanumeric ones. -/
def identCmp (a b : String) : Ordering :=
  let ac := a.toList
  let bc := b.toList
  if ac.all Char.isDigit && bc.all Char.isDigit then compare (digitsToNat ac) (digitsToNat bc)
  else if ac.all Char.isDigit then .lt
  else if bc.all Char.isDigit then .gt
  else cmpChars ac bc

def identListCmp : List String → List String → Ordering
  | [], [] => .eq
  | [], _ :: _ => .lt
  | _ :: _, [] => .gt
  | a :: ra, b :: rb =>
    match identCmp a b with
    | .eq => identListCmp ra rb
    | o => o

/-- A version without prerelease sorts above one with a prerelease. -/
def prereleaseCmp : Option String → Option String → Ordering
  | none, none => .eq
  | none, some _ => .gt
  | some _, none => .lt
  | some a, some b => identListCmp (splitChar a '.') (splitChar b '.')

/-- python-semver compare: major, minor, patch, then prerelease; build ignored. -/
def Version.compareV (a b : Version) : Ordering :=
  match compare a.major b.major with
  | .eq =>
    match compare a.minor b.minor with
    | .eq =>
      match compare a.patch b.patch with
      | .eq => prereleaseCmp a.prerelease b.prerelease
      | o => o
    | o => o
  | o => o

/-- Python Version.__ge__. -/
def Version.ge (a b : Version) : Bool :=
  match Version.compareV a b with
  | .lt => false
  | _ => true

/-- Python Version.__lt__. -/
def Version.ltb (a b : Version) : Bool :=
  match Version.compareV a b with
  | .lt => true
  | _ => false

/-- Version.parse("4.0.0"), the boundary used throughout get_config. -/
def v400 : Version := ⟨4, 0, 0, none, none⟩

theorem parse_4_0_0 : Version.parse "4.0.0" = some v400 := rfl

/-- The Django settings object, restricted to the attributes config.py reads.
For each TAILWIND_CLI_* attribute, none models an absent attribute (getattr
falls back to its default) and the empty string also covers an attribute
explicitly set to None: both are falsy and flow identically through this code. -/
structure Settings where
  staticfiles_dirs : Option (List String)
  base_dir : String
  tailwind_cli_version : Option String
  tailwind_cli_src_repo : Option String
  tailwind_cli_asset_name : Option String
  tailwind_cli_path : Option String
  tailwind_cli_dist_css : Option String
  tailwind_cli_src_css : Option String
  tailwind_cli_config_file : Option String
  tailwind_cli_automatic_download : Option Bool
deriving Repr

/-- Outcome of the requests.get call made for a "latest" version lookup:
either the call raised, or it produced a response with an ok flag and an
optional location header. -/
inductive NetResult where
  | raised
  | response (ok : Bool) (location : Option String)
deriving DecidableEq, Repr

/-- Errors get_version and get_config can raise. valueError carries the exact
message of the Python ValueError; versionParseError is the ValueError raised
by semver Version.parse; requestError is a requests exception propagating
uncaught out of get_version. -/
inductive ConfigError where
  | valueError (msg : String)
  | versionParseError (s : String)
  | requestError
deriving DecidableEq, Repr

def FALLBACK_VERSION : String := "4.0.6"

/-- location.rstrip("/").split("/")[-1].replace("v", "") from get_version. -/
def latestFromLocation (loc : String) : String :=
  removeChar ((splitChar (rstripSlashes loc) '/').getLastD "") 'v'

/-- The version string taken from the lookup response: the last path segment of
the location header when the response is ok and carries one, the hardcoded
fallback otherwise (r.ok and "location" in r.headers). -/
def latestVersionString (ok : Bool) (loc : Option String) : String :=
  match ok, loc with
  | true, some l => latestFromLocation l
  | _, _ => FALLBACK_VERSION

/-- Version.parse at the end of get_version, pairing the string with its parse
and turning the ValueError into an error value. -/
def parseToVersion (vs : String) : Except ConfigError (String × Version) :=
  match Version.parse vs with
  | some v => .ok (vs, v)
  | none => .error (.versionParseError vs)

/-- get_version from config.py: the configured version string, or for "latest"
a lookup of the release redirect with a hardcoded fallback on a response that
is not ok or lacks a location header. A raised request exception is not
caught anywhere in the source and therefore propagates as an error. -/
def get_version (s : Settings) (net : NetResult) : Except ConfigError (String × Version) :=
  if s.tailwind_cli_version.getD "latest" = "latest" then
    if s.tailwind_cli_src_repo.getD "tailwindlabs/tailwindcss" = "" then
      .error (.valueError "TAILWIND_CLI_SRC_REPO must not be None.")
    else
      match net with
      | .raised => .error .requestError
      | .response ok loc => parseToVersion (latestVersionString ok loc)
  else parseToVersion (s.tailwind_cli_version.getD "latest")

/-- The ambient effects get_config consumes: platform.system(), platform.machine(),
the network, and the filesystem checks on the configured CLI path
(exists ∧ is_file ∧ executable), Path.expanduser and Path.resolve. -/
structure Env where
  platformSystem : String
  platformMachine : String
  net : NetResult
  isExecFile : String → Bool
  expandUser : String → String
  resolvePath : String → String

/-- platform.system().lower() with "darwin" mapped to "macos". -/
def normalizeSystem (sys : String) : String :=
  let s := lowerStr sys
  if s = "darwin" then "macos" else s

/-- platform.machine().lower() with x86_64/amd64 mapped to x64 and aarch64 to arm64. -/
def normalizeMachine (m : String) : String :=
  let s := lowerStr m
  if s = "x86_64" ∨ s = "amd64" then "x64"
  else if s = "aarch64" then "arm64"
  else s

/-- ".exe" exactly on the windows identifier. -/
def extensionFor (sys : String) : String :=
  if normalizeSystem sys = "windows" then ".exe" else ""

/-- Path(getattr(settings, "TAILWIND_CLI_PATH", "~/.local/bin/") or settings.BASE_DIR). -/
def cliBasePath (s : Settings) : String :=
  let p := s.tailwind_cli_path.getD "~/.local/bin/"
  pathNorm (if p = "" then s.base_dir else p)

/-- The synthesized CLI file name tailwindcss-{system}-{machine}-{version_str}{extension}. -/
def cliFileName (system machine version_str ext : String) : String :=
  "tailwindcss-" ++ system ++ "-" ++ machine ++ "-" ++ version_str ++ ext

/-- The CLI path: the configured path verbatim (expanded and resolved) when it is
an existing executable file, else that path taken as a directory joined with the
synthesized file name. -/
def resolveCliPath (s : Settings) (env : Env) (system machine ext version_str : String) : String :=
  let base := cliBasePath s
  if env.isExecFile base then env.resolvePath (env.expandUser base)
  else pathJoin (env.expandUser base) (cliFileName system machine version_str ext)

/-- The release asset file name {asset_name}-{system}-{machine}{extension}. -/
def assetFileName (asset system machine ext : String) : String :=
  asset ++ "-" ++ system ++ "-" ++ machine ++ ext

/-- https://github.com/{repo_url}/releases/download/v{version_str}/{asset part}. -/
def mkDownloadUrl (repo version_str asset system machine ext : String) : String :=
  ("https://github.com/" ++ repo ++ "/releases/download/v" ++ version_str)
    ++ "/" ++ assetFileName asset system machine ext

/-- The source CSS path: required (with default css/source.css) at version ≥ 4.0.0,
optional below it where a falsy setting simply yields no path. -/
def resolveSrcCss (ge4 : Bool) (setting : Option String) (sfd0 : String) :
    Except ConfigError (Option String) :=
  if ge4 then
    if setting.getD "css/source.css" = "" then
      .error (.valueError "TAILWIND_CLI_SRC_CSS must not be None.")
    else .ok (some (pathJoin sfd0 (setting.getD "css/source.css")))
  else
    match setting with
    | none => .ok none
    | some v => if v = "" then .ok none else .ok (some (pathJoin sfd0 v))

/-- The legacy config file path: required (with default tailwind.config.js) below
4.0.0; at ≥ 4.0.0 a truthy setting is a ValueError and a falsy one yields none. -/
def resolveConfigFile (lt4 : Bool) (setting : Option String) (base : String) :
    Except ConfigError (Option String) :=
  if lt4 then
    if setting.getD "tailwind.config.js" = "" then
      .error (.valueError "TAILWIND_CLI_CONFIG_FILE must not be None.")
    else .ok (some (pathJoin base (setting.getD "tailwind.config.js")))
  else
    match setting with
    | none => .ok none
    | some v =>
      if v = "" then .ok none
      else .error (.valueError "TAILWIND_CLI_CONFIG_FILE is not used by this library with Tailwind CSS >= 4.x.")

/-- The Config dataclass of config.py. -/
structure Config where
  version_str : String
  version : Version
  cli_path : String
  download_url : String
  dist_css : String
  dist_css_base : String
  src_css : Option String
  config_file : Option String
  automatic_download : Bool
deriving Repr

/-- Config.build_cmd: output, minify, and an input argument when src_css is set. -/
def Config.build_cmd (c : Config) : List String :=
  let result := [c.cli_path, "--output", c.dist_css, "--minify"]
  match c.src_css with
  | some src => result ++ ["--input", src]
  | none => result

/-- Config.watch_cmd: output, watch, and an input argument when src_css is set. -/
def Config.watch_cmd (c : Config) : List String :=
  let result := [c.cli_path, "--output", c.dist_css, "--watch"]
  match c.src_css with
  | some src => result ++ ["--input", src]
  | none => result

/-- get_config from config.py, with each check in source order. -/
def get_config (s : Settings) (env : Env) : Except ConfigError Config :=
  match s.staticfiles_dirs with
  | none => .error (.valueError "STATICFILES_DIRS is empty. Please add a path to your static files.")
  | some sfd =>
    match sfd with
    | [] => .error (.valueError "STATICFILES_DIRS is empty. Please add a path to your static files.")
    | sfd0 :: _ =>
      match get_version s env.net with
      | .error e => .error e
      | .ok (version_str, version) =>
        if s.tailwind_cli_asset_name.getD "tailwindcss" = "" then
          .error (.valueError "TAILWIND_CLI_ASSET_NAME must not be None.")
        else if s.tailwind_cli_src_repo.getD "tailwindlabs/tailwindcss" = "" then
          .error (.valueError "TAILWIND_CLI_SRC_REPO must not be None.")
        else if s.tailwind_cli_dist_css.getD "css/tailwind.css" = "" then
          .error (.valueError "TAILWIND_CLI_DIST_CSS must not be None.")
        else
          match resolveSrcCss (Version.ge version v400) s.tailwind_cli_src_css sfd0 with
          | .error e => .error e
          | .ok src_css =>
            match resolveConfigFile (Version.ltb version v400) s.tailwind_cli_config_file s.base_dir with
            | .error e => .error e
            | .ok config_file =>
              .ok { version_str := version_str
                    version := version
                    cli_path := resolveCliPath s env (normalizeSystem env.platformSystem)
                      (normalizeMachine env.platformMachine) (extensionFor env.platformSystem)
                      version_str
                    download_url := mkDownloadUrl
                      (s.tailwind_cli_src_repo.getD "tailwindlabs/tailwindcss") version_str
                      (s.tailwind_cli_asset_name.getD "tailwindcss")
                      (normalizeSystem env.platformSystem) (normalizeMachine env.platformMachine)
                      (extensionFor env.platformSystem)
                    dist_css := pathJoin sfd0 (s.tailwind_cli_dist_css.getD "css/tailwind.css")
                    dist_css_base := s.tailwind_cli_dist_css.getD "css/tailwind.css"
                    src_css := src_css
                    config_file := config_file
                    automatic_download := s.tailwind_cli_automatic_download.getD true }


/-- Outcome of the requests.get(download_url) call made by
_download_cli_with_progress: raised covers both a request exception and a
raise_for_status error (both become the same CommandError); ok carries
int(headers.get("content-length", 0)), so 0 also covers a missing header. -/
inductive DlResponse where
  | raised
  | ok (contentLength : Nat)
deriving DecidableEq, Repr

/-- Filesystem operations performed while installing the downloaded binary,
in execution order. -/
inductive FileOp where
  | writeBytes (path : String)
  | mkdirParents (path : String)
  | openWrite (path : String)
  | chmod (path : String) (mode : Nat)
deriving DecidableEq, Repr

/-- _download_cli_with_progress from tailwind.py as the trace of filesystem
operations it performs: on a zero or missing content-length it writes the body
in one shot and returns; otherwise it creates the parent directories and
streams into the opened file. A request exception becomes a CommandError. -/
def download_cli_with_progress (resp : DlResponse) (filepath : String) :
    Except String (List FileOp) :=
  match resp with
  | .raised => .error "Failed to download Tailwind CSS CLI"
  | .ok len =>
    if len = 0 then .ok [FileOp.writeBytes filepath]
    else .ok [FileOp.mkdirParents (parentDir filepath), FileOp.openWrite filepath]

/-- The download tail of _download_cli_with_verbose: run
_download_cli_with_progress, then chmod the file to 0o755. -/
def download_and_install_cli (resp : DlResponse) (cliPath : String) :
    Except String (List FileOp) :=
  match download_cli_with_progress resp cliPath with
  | .error e => .error e
  | .ok ops => .ok (ops ++ [FileOp.chmod cliPath 0o755])

/-- What the source CSS target looks like on disk: missing, unreadable
(read_text raised OSError or UnicodeDecodeError), or readable content. -/
inductive FileState where
  | missing
  | unreadable
  | content (text : String)
deriving DecidableEq, Repr

def DEFAULT_SOURCE_CSS : String := "@import \"tailwindcss\";\n"
def DAISY_UI_SOURCE_CSS : String := "@import \"tailwindcss\";\n@plugin \"daisyui\";\n"

/-- _should_recreate_file from tailwind.py: recreate when the file is missing,
unreadable, or holds different content. -/
def should_recreate_file (fs : FileState) (content : String) : Bool :=
  match fs with
  | .missing => true
  | .unreadable => true
  | .content cur => cur ≠ content

def fileExistsB : FileState → Bool
  | .missing => false
  | _ => true

/-- The write performed by the source-CSS bootstrap, or no write. -/
inductive CssWrite where
  | noWrite
  | write (path content : String)
deriving DecidableEq, Repr

/-- _create_standard_config_with_verbose from tailwind.py.
Modelled from the spec: the two Config fields it reads, use_daisy_ui and
overwrite_default_config, are absent from the Config dataclass in the given
config.py; per the spec they are a configuration flag selecting the UI-plugin
template and the overwrite-default policy that applies when the default
source-CSS path is in use. They are taken here as explicit boolean inputs;
everything else follows the source: no-op without a src_css, the content is one
of two fixed templates, the default path is rewritten when missing or
different, a custom path only when no file exists yet. -/
def create_standard_config (src_css : Option String)
    (use_daisy_ui overwrite_default_config : Bool) (fs : FileState) : CssWrite :=
  match src_css with
  | none => .noWrite
  | some p =>
    let content := if use_daisy_ui then DAISY_UI_SOURCE_CSS else DEFAULT_SOURCE_CSS
    let should_create :=
      if overwrite_default_config then should_recreate_file fs content
      else !fileExistsB fs
    if should_create then .write p content else .noWrite

/-- Whether some process of the pair has exited with a nonzero returncode:
the condition the monitor loop's for-loop checks. -/
def anyNonzero (st : Option Int × Option Int) : Bool :=
  (match st.1 with | some c => c != 0 | none => false) ||
  (match st.2 with | some c => c != 0 | none => false)

/-- Whether no process remains alive, the loop's other exit condition. -/
def bothExited (st : Option Int × Option Int) : Bool :=
  st.1.isSome && st.2.isSome

/-- The while-loop of ProcessManager._monitor_processes over a poll schedule:
at each iteration the loop exits when shutdown was requested or no process is
alive, otherwise it marks shutdown when some process has exited nonzero and
polls again. Iterations stand for the 0.5 s polling steps; fuel bounds the
observed portion of the run. Returns the final shutdown flag and exit step. -/
def monitorLoop (sched : Nat → Option Int × Option Int) :
    Nat → Nat → Bool → Bool × Nat
  | 0, t, sd => (sd, t)
  | fuel + 1, t, sd =>
    if sd || bothExited (sched t) then (sd, t)
    else monitorLoop sched fuel (t + 1) (sd || anyNonzero (sched t))

/-- Process-handle operations issued during _cleanup_processes, in order. -/
inductive ProcOp where
  | terminate
  | waitTimeout (secs : Nat)
  | kill
  | wait
deriving DecidableEq, Repr

/-- How one still-alive process reacts to the teardown sequence. The raisesOn
cases are the OSError / SubprocessError paths of a process that already exited;
the except clause swallows them, so they still yield an ordinary trace. -/
inductive TermBehavior where
  | graceful
  | timeoutThenKill
  | raisesOnTerminate
  | raisesOnWait
  | raisesOnKill
deriving DecidableEq, Repr

/-- The per-process body of ProcessManager._cleanup_processes: an exited
process (poll() is not None) is skipped; a live one gets terminate then
wait(timeout=5); on TimeoutExpired it gets kill then an unconditional wait;
any OSError / SubprocessError ends the sequence silently. -/
def cleanupOne (st : Option Int) (b : TermBehavior) : List ProcOp :=
  match st with
  | some _ => []
  | none =>
    match b with
    | .graceful => [ProcOp.terminate, ProcOp.waitTimeout 5]
    | .timeoutThenKill => [ProcOp.terminate, ProcOp.waitTimeout 5, ProcOp.kill, ProcOp.wait]
    | .raisesOnTerminate => [ProcOp.terminate]
    | .raisesOnWait => [ProcOp.terminate, ProcOp.waitTimeout 5]
    | .raisesOnKill => [ProcOp.terminate, ProcOp.waitTimeout 5, ProcOp.kill]

/-- ProcessManager._cleanup_processes over the two managed processes. -/
def cleanupProcesses (st : Option Int × Option Int) (b : TermBehavior × TermBehavior) :
    List ProcOp :=
  cleanupOne st.1 b.1 ++ cleanupOne st.2 b.2

/-- Result of a supervised run: the final shutdown flag and the teardown trace.
The function is total, so the supervisor returns without raising. -/
structure MonitorResult where
  shutdownRequested : Bool
  exitTime : Nat
  cleanupOps : List ProcOp
deriving DecidableEq, Repr

/-- ProcessManager._monitor_processes: the polling loop followed by the
unconditional _cleanup_processes on whatever is still alive at exit. -/
def monitor_processes (sched : Nat → Option Int × Option Int) (fuel : Nat)
    (b : TermBehavior × TermBehavior) : MonitorResult :=
  let r := monitorLoop sched fuel 0 false
  { shutdownRequested := r.1
    exitTime := r.2
    cleanupOps := cleanupProcesses (sched r.2) b }

/-- The settings used by the repository's own test fixture: a base dir of
/home/user/project, its assets directory as the only staticfiles dir, and
every TAILWIND_CLI_* attribute absent. -/
def defaultSettings : Settings :=
  { staticfiles_dirs := some ["/home/user/project/assets"]
    base_dir := "/home/user/project"
    tailwind_cli_version := none
    tailwind_cli_src_repo := none
    tailwind_cli_asset_name := none
    tailwind_cli_path := none
    tailwind_cli_dist_css := none
    tailwind_cli_src_css := none
    tailwind_cli_config_file := none
    tailwind_cli_automatic_download := none }

/-- A Linux x86_64 host whose configured CLI path is not an existing executable
file, with the redirect response the test fixture mocks. -/
def testEnv : Env :=
  { platformSystem := "Linux"
    platformMachine := "x86_64"
    net := NetResult.response true
      (some "https://github.com/tailwindlabs/tailwindcss/releases/tag/v4.0.10")
    isExecFile := fun _ => false
    expandUser := fun p => p
    resolvePath := fun p => p }

def settings3413 : Settings := { defaultSettings with tailwind_cli_version := some "3.4.13" }

def settings40 : Settings := { defaultSettings with tailwind_cli_version := some "4.0" }

def settingsLatest : Settings := { defaultSettings with tailwind_cli_version := some "latest" }

/-- Inversion of get_config: a successfully resolved configuration records the
nonempty staticfiles dirs, a successful version resolution, the three nonempty
string settings, and field values produced by the helper resolvers. -/
theorem get_config_ok_inv {s : Settings} {env : Env} {cfg : Config}
    (h : get_config s env = Except.ok cfg) :
    ∃ sfd0 rest vs v src cf,
      s.staticfiles_dirs = some (sfd0 :: rest) ∧
      get_version s env.net = Except.ok (vs, v) ∧
      s.tailwind_cli_asset_name.getD "tailwindcss" ≠ "" ∧
      s.tailwind_cli_src_repo.getD "tailwindlabs/tailwindcss" ≠ "" ∧
      s.tailwind_cli_dist_css.getD "css/tailwind.css" ≠ "" ∧
      resolveSrcCss (Version.ge v v400) s.tailwind_cli_src_css sfd0 = Except.ok src ∧
      resolveConfigFile (Version.ltb v v400) s.tailwind_cli_config_file s.base_dir = Except.ok cf ∧
      cfg = { version_str := vs, version := v,
              cli_path := resolveCliPath s env (normalizeSystem env.platformSystem)
                (normalizeMachine env.platformMachine) (extensionFor env.platformSystem) vs,
              download_url := mkDownloadUrl (s.tailwind_cli_src_repo.getD "tailwindlabs/tailwindcss")
                vs (s.tailwind_cli_asset_name.getD "tailwindcss")
                (normalizeSystem env.platformSystem) (normalizeMachine env.platformMachine)
                (extensionFor env.platformSystem),
              dist_css := pathJoin sfd0 (s.tailwind_cli_dist_css.getD "css/tailwind.css"),
              dist_css_base := s.tailwind_cli_dist_css.getD "css/tailwind.css",
              src_css := src, config_file := cf,
              automatic_download := s.tailwind_cli_automatic_download.getD true } := by
  unfold get_config at h
  repeat' split at h
  any_goals exact Except.noConfusion h
  rename_i x3 sfd sfd0 rest hsd x2 vs v hv ha hr hd x1 src hsrc x0 cf hcf
  injection h with h
  exact ⟨sfd0, rest, vs, v, src, cf, hsd, hv, ha, hr, hd, hsrc, hcf, h.symm⟩

/-- On every version, Python greater-or-equal is the negation of less-than. -/
theorem Version.ge_eq_not_ltb (a b : Version) : Version.ge a b = !Version.ltb a b := by
  unfold Version.ge Version.ltb
  cases Version.compareV a b <;> rfl

/-- At version ≥ 4.0.0 a successful source-CSS resolution always yields a path. -/
theorem resolveSrcCss_ge4_isSome {st : Option String} {sfd0 : String} {r : Option String}
    (h : resolveSrcCss true st sfd0 = Except.ok r) : r.isSome = true := by
  unfold resolveSrcCss at h
  split at h
  · split at h
    · exact Except.noConfusion h
    · injection h with h
      subst h
      rfl
  · rename_i hf
    exact absurd rfl hf

/-- Below 4.0.0 the source-CSS path is absent exactly when the setting is absent
or falsy. -/
theorem resolveSrcCss_lt4_none_iff {st : Option String} {sfd0 : String} {r : Option String}
    (h : resolveSrcCss false st sfd0 = Except.ok r) :
    r = none ↔ (st = none ∨ st = some "") := by
  unfold resolveSrcCss at h
  split at h
  · rename_i ht
    exact absurd ht (by simp)
  · split at h
    · injection h with h
      subst h
      simp
    · rename_i v
      split at h
      · rename_i hv
        subst hv
        injection h with h
        subst h
        simp
      · rename_i hv
        injection h with h
        subst h
        simp [hv]

/-- Below 4.0.0 a successful config-file resolution always yields a path. -/
theorem resolveConfigFile_lt4_isSome {st : Option String} {base : String} {r : Option String}
    (h : resolveConfigFile true st base = Except.ok r) : r.isSome = true := by
  unfold resolveConfigFile at h
  split at h
  · split at h
    · exact Except.noConfusion h
    · injection h with h
      subst h
      rfl
  · rename_i hf
    exact absurd rfl hf

/-- At version ≥ 4.0.0 a successful config-file resolution yields no path and
forces the setting to have been absent or falsy. -/
theorem resolveConfigFile_ge4 {st : Option String} {base : String} {r : Option String}
    (h : resolveConfigFile false st base = Except.ok r) :
    r = none ∧ (st = none ∨ st = some "") := by
  unfold resolveConfigFile at h
  split at h
  · rename_i ht
    exact absurd ht (by simp)
  · split at h
    · injection h with h
      subst h
      simp
    · rename_i v
      split at h
      · rename_i hv
        subst hv
        injection h with h
        subst h
        simp
      · exact Except.noConfusion h

/-- C1: the claim (matching the spec and the repository's own test
test_build_cmd_for_tailwind_css_3_x) expects the build command for version
3.4.13 with no source-CSS setting to end in a --config argument carrying the
legacy config file. Evaluating the code at exactly that input shows the
resolver does produce the legacy config file, yet Config.build_cmd stops after
--minify and never emits --config: the code contradicts its own test suite. -/
theorem c1_build_cmd_eval :
    (get_config settings3413 testEnv).map Config.build_cmd =
      Except.ok ["~/.local/bin/tailwindcss-linux-x64-3.4.13", "--output",
        "/home/user/project/assets/css/tailwind.css", "--minify"] ∧
    (get_config settings3413 testEnv).map (fun c => c.config_file) =
      Except.ok (some "/home/user/project/tailwind.config.js") ∧
    ["~/.local/bin/tailwindcss-linux-x64-3.4.13", "--output",
        "/home/user/project/assets/css/tailwind.css", "--minify"] ≠
      ["~/.local/bin/tailwindcss-linux-x64-3.4.13", "--output",
        "/home/user/project/assets/css/tailwind.css", "--minify", "--config",
        "/home/user/project/tailwind.config.js"] :=
  ⟨rfl, rfl, by decide⟩

/-- C2, counterexample: with the configured version "latest", a raised request
exception does not produce the fallback version; get_version propagates it as
an error, refuting the claim for the request-failure outcome. -/
theorem c2_raised_counterexample :
    get_version settingsLatest NetResult.raised = Except.error ConfigError.requestError ∧
    get_version settingsLatest NetResult.raised ≠
      Except.ok (FALLBACK_VERSION, ⟨4, 0, 6, none, none⟩) :=
  ⟨rfl, fun hcontra => Except.noConfusion hcontra⟩

/-- C2, amended: with the configured version "latest" and a nonempty source
repository setting, a response that is not ok or lacks a location header makes
get_version return the hardcoded fallback version 4.0.6; only a raised request
exception propagates instead of falling back. -/
theorem c2_fallback_on_bad_response (s : Settings) (ok : Bool) (loc : Option String)
    (hv : s.tailwind_cli_version.getD "latest" = "latest")
    (hr : s.tailwind_cli_src_repo.getD "tailwindlabs/tailwindcss" ≠ "")
    (hbad : ok = false ∨ loc = none) :
    get_version s (NetResult.response ok loc) =
      Except.ok (FALLBACK_VERSION, ⟨4, 0, 6, none, none⟩) := by
  have hsel : latestVersionString ok loc = FALLBACK_VERSION := by
    rcases hbad with h | h
    · subst h
      cases loc <;> rfl
    · subst h
      cases ok <;> rfl
  unfold get_version
  rw [hv, if_pos rfl, if_neg hr]
  show parseToVersion (latestVersionString ok loc) = _
  rw [hsel]
  rfl

/-- Witness for the amended C2 at a concrete not-ok response. -/
theorem c2_fallback_witness :
    get_version settingsLatest (NetResult.response false none) =
      Except.ok (FALLBACK_VERSION, ⟨4, 0, 6, none, none⟩) :=
  c2_fallback_on_bad_response settingsLatest false none rfl (by decide) (Or.inl rfl)

/-- C10: a configured version string that is neither "latest" nor valid SemVer
makes get_version fail with the parse error for every network outcome (so no
network request is consulted and no fallback applies), and get_config can then
never return a configuration. -/
theorem c10_invalid_version (s : Settings) (vs : String)
    (hset : s.tailwind_cli_version = some vs) (hlatest : vs ≠ "latest")
    (hparse : Version.parse vs = none) :
    (∀ net, get_version s net = Except.error (ConfigError.versionParseError vs)) ∧
    (∀ env : Env, ∀ cfg : Config, get_config s env ≠ Except.ok cfg) := by
  have hver : ∀ net, get_version s net = Except.error (.versionParseError vs) := by
    intro net
    unfold get_version
    rw [hset]
    simp only [Option.getD_some]
    rw [if_neg hlatest]
    unfold parseToVersion
    rw [hparse]
  refine ⟨hver, ?_⟩
  intro env cfg hok
  obtain ⟨_, _, vs2, v2, _, _, _, hv, _⟩ := get_config_ok_inv hok
  rw [hver env.net] at hv
  exact Except.noConfusion hv

/-- Witness for C10 at the concrete invalid version string "4.0". -/
theorem c10_witness :
    get_version settings40 NetResult.raised =
      Except.error (ConfigError.versionParseError "4.0") :=
  (c10_invalid_version settings40 "4.0" rfl (by decide) rfl).1 NetResult.raised

def settings3413src : Settings :=
  { defaultSettings with
      tailwind_cli_version := some "3.4.13"
      tailwind_cli_src_css := some "assets/css/source.css" }

def settings4cfg : Settings :=
  { defaultSettings with
      tailwind_cli_version := some "4.0.0"
      tailwind_cli_config_file := some "tailwind.config.js" }

/-- The configuration the default settings resolve to on the test host. -/
def cfgDefault : Config :=
  { version_str := "4.0.10"
    version := ⟨4, 0, 10, none, none⟩
    cli_path := "~/.local/bin/tailwindcss-linux-x64-4.0.10"
    download_url := "https://github.com/tailwindlabs/tailwindcss/releases/download/v4.0.10/tailwindcss-linux-x64"
    dist_css := "/home/user/project/assets/css/tailwind.css"
    dist_css_base := "css/tailwind.css"
    src_css := some "/home/user/project/assets/css/source.css"
    config_file := none
    automatic_download := true }

theorem get_config_default_eval : get_config defaultSettings testEnv = Except.ok cfgDefault := rfl

/-- C3, counterexample: at version 3.4.13 with the optional source-CSS setting
supplied, the resolved configuration carries a non-null src_css even though the
version is below 4.0.0, refuting the claim's "src_css is null regardless of
which optional settings are supplied" (the repository's test
test_set_tailwind_cli_src_css_for_tailwind_css_3_x asserts this behaviour). -/
theorem c3_counterexample :
    (get_config settings3413src testEnv).map
      (fun c => (Version.ltb c.version v400, c.src_css)) =
      Except.ok (true, some "/home/user/project/assets/assets/css/source.css") := rfl

/-- C3, amended: in every successfully resolved configuration, a version
≥ 4.0.0 forces a non-null src_css and a null config_file; a version < 4.0.0
forces a non-null config_file, while src_css is null exactly when the optional
source-CSS setting is absent or falsy (and non-null when supplied non-empty). -/
theorem c3_version_paths_amended {s : Settings} {env : Env} {cfg : Config}
    (h : get_config s env = Except.ok cfg) :
    (Version.ge cfg.version v400 = true →
      cfg.src_css.isSome = true ∧ cfg.config_file = none) ∧
    (Version.ltb cfg.version v400 = true →
      cfg.config_file.isSome = true ∧
      (cfg.src_css = none ↔ (s.tailwind_cli_src_css = none ∨ s.tailwind_cli_src_css = some ""))) := by
  obtain ⟨sfd0, rest, vs, v, src, cf, hsd, hv, ha, hr, hd, hsrc, hcf, hcfg⟩ := get_config_ok_inv h
  have hver : cfg.version = v := by rw [hcfg]
  have hsrcf : cfg.src_css = src := by rw [hcfg]
  have hcff : cfg.config_file = cf := by rw [hcfg]
  rw [hver, hsrcf, hcff]
  constructor
  · intro hge
    rw [hge] at hsrc
    have hlt : Version.ltb v v400 = false := by
      have hgn := Version.ge_eq_not_ltb v v400
      rw [hge] at hgn
      cases hl : Version.ltb v v400
      · rfl
      · rw [hl] at hgn
        exact absurd hgn (by decide)
    rw [hlt] at hcf
    exact ⟨resolveSrcCss_ge4_isSome hsrc, (resolveConfigFile_ge4 hcf).1⟩
  · intro hlt
    rw [hlt] at hcf
    have hge : Version.ge v v400 = false := by
      rw [Version.ge_eq_not_ltb, hlt]
      rfl
    rw [hge] at hsrc
    exact ⟨resolveConfigFile_lt4_isSome hcf, resolveSrcCss_lt4_none_iff hsrc⟩

/-- Witness for the amended C3 at the default settings resolving to 4.0.10. -/
theorem c3_witness :
    cfgDefault.src_css.isSome = true ∧ cfgDefault.config_file = none :=
  (c3_version_paths_amended get_config_default_eval).1 rfl

/-- C4: a supplied non-empty legacy config-file setting together with a
resolved version ≥ 4.0.0 makes configuration resolution fail with an error
rather than return a configuration. -/
theorem c4_config_file_ge4_error {s : Settings} {env : Env} {cf0 vs : String} {v : Version}
    (hset : s.tailwind_cli_config_file = some cf0) (hne : cf0 ≠ "")
    (hv : get_version s env.net = Except.ok (vs, v)) (hge : Version.ge v v400 = true) :
    ∃ e, get_config s env = Except.error e := by
  cases hcfg : get_config s env with
  | error e => exact ⟨e, rfl⟩
  | ok cfg =>
    exfalso
    obtain ⟨sfd0, rest, vs2, v2, src, cf, hsd, hv2, ha, hr, hd, hsrc, hcf, _⟩ :=
      get_config_ok_inv hcfg
    rw [hv] at hv2
    injection hv2 with hpair
    injection hpair with hvs hvv
    subst hvv
    have hlt : Version.ltb v v400 = false := by
      have hgn := Version.ge_eq_not_ltb v v400
      rw [hge] at hgn
      cases hl : Version.ltb v v400
      · rfl
      · rw [hl] at hgn
        exact absurd hgn (by decide)
    rw [hlt, hset] at hcf
    rcases (resolveConfigFile_ge4 hcf).2 with hbad | hbad
    · exact Option.noConfusion hbad
    · injection hbad with hbad
      exact hne hbad

/-- Witness for C4: version 4.0.0 with a supplied config file errors out. -/
theorem c4_witness : ∃ e, get_config settings4cfg testEnv = Except.error e :=
  @c4_config_file_ge4_error settings4cfg testEnv "tailwind.config.js" "4.0.0" v400
    rfl (by decide) rfl rfl

/-- C6: every resolved configuration's download_url is exactly the release URL
whose final path segment is asset-platform-arch-extension (so the URL ends in
that segment and the version string appears only in the preceding
/releases/download/v{version}/ directory, never after the asset name), and
whenever the configured CLI path is not an existing executable file the
cli_path is a directory joined with the synthesized file name
tailwindcss-platform-arch-version-extension embedding platform, architecture
and the resolved version. -/
theorem c6_url_and_cli_name {s : Settings} {env : Env} {cfg : Config}
    (h : get_config s env = Except.ok cfg) :
    cfg.download_url = mkDownloadUrl (s.tailwind_cli_src_repo.getD "tailwindlabs/tailwindcss")
      cfg.version_str (s.tailwind_cli_asset_name.getD "tailwindcss")
      (normalizeSystem env.platformSystem) (normalizeMachine env.platformMachine)
      (extensionFor env.platformSystem) ∧
    (∃ p, cfg.download_url = p ++ "/" ++ assetFileName (s.tailwind_cli_asset_name.getD "tailwindcss")
      (normalizeSystem env.platformSystem) (normalizeMachine env.platformMachine)
      (extensionFor env.platformSystem)) ∧
    (env.isExecFile (cliBasePath s) = false →
      cfg.cli_path = pathJoin (env.expandUser (cliBasePath s))
        (cliFileName (normalizeSystem env.platformSystem) (normalizeMachine env.platformMachine)
          cfg.version_str (extensionFor env.platformSystem))) := by
  obtain ⟨sfd0, rest, vs, v, src, cf, hsd, hv, ha, hr, hd, hsrc, hcf, hcfg⟩ := get_config_ok_inv h
  have hdu : cfg.download_url = mkDownloadUrl (s.tailwind_cli_src_repo.getD "tailwindlabs/tailwindcss")
      vs (s.tailwind_cli_asset_name.getD "tailwindcss") (normalizeSystem env.platformSystem)
      (normalizeMachine env.platformMachine) (extensionFor env.platformSystem) := by rw [hcfg]
  have hvs : cfg.version_str = vs := by rw [hcfg]
  have hcli : cfg.cli_path = resolveCliPath s env (normalizeSystem env.platformSystem)
      (normalizeMachine env.platformMachine) (extensionFor env.platformSystem) vs := by rw [hcfg]
  refine ⟨?_, ?_, ?_⟩
  · rw [hdu, hvs]
  · refine ⟨"https://github.com/" ++ s.tailwind_cli_src_repo.getD "tailwindlabs/tailwindcss"
      ++ "/releases/download/v" ++ vs, ?_⟩
    rw [hdu]
    rfl
  · intro hexec
    rw [hcli, hvs]
    unfold resolveCliPath
    rw [if_neg (by simp [hexec])]

/-- Witness for C6: the default resolution joins the user-local bin directory
with the synthesized platform-arch-version file name. -/
theorem c6_witness :
    cfgDefault.cli_path = pathJoin (testEnv.expandUser (cliBasePath defaultSettings))
      (cliFileName (normalizeSystem testEnv.platformSystem)
        (normalizeMachine testEnv.platformMachine) cfgDefault.version_str
        (extensionFor testEnv.platformSystem)) :=
  (c6_url_and_cli_name get_config_default_eval).2.2 rfl

/-- C5: normalization is a total function (normalizeSystem, normalizeMachine
and extensionFor are total Lean functions): the three OS names map as stated
and any other OS name is just lower-cased, the two x86 spellings map to x64 and
aarch64 to arm64 while every unrecognized machine string passes through
lower-cased, and the .exe extension is appended exactly when the normalized OS
is windows. -/
theorem c5_platform_normalization :
    normalizeSystem "Windows" = "windows" ∧
    normalizeSystem "Darwin" = "macos" ∧
    normalizeSystem "Linux" = "linux" ∧
    (∀ sys, lowerStr sys ≠ "darwin" → normalizeSystem sys = lowerStr sys) ∧
    normalizeMachine "x86_64" = "x64" ∧
    normalizeMachine "amd64" = "x64" ∧
    normalizeMachine "aarch64" = "arm64" ∧
    (∀ m, lowerStr m ≠ "x86_64" → lowerStr m ≠ "amd64" → lowerStr m ≠ "aarch64" →
      normalizeMachine m = lowerStr m) ∧
    (∀ sys, extensionFor sys = ".exe" ↔ normalizeSystem sys = "windows") := by
  refine ⟨rfl, rfl, rfl, ?_, rfl, rfl, rfl, ?_, ?_⟩
  · intro sys hne
    unfold normalizeSystem
    exact if_neg hne
  · intro m h1 h2 h3
    unfold normalizeMachine
    rw [if_neg ?_, if_neg h3]
    exact fun hor => hor.elim h1 h2
  · intro sys
    unfold extensionFor
    by_cases hc : normalizeSystem sys = "windows"
    · rw [if_pos hc]
      exact ⟨fun _ => hc, fun _ => rfl⟩
    · rw [if_neg hc]
      exact ⟨fun hcontra => absurd hcontra (by decide), fun hw => absurd hw hc⟩

/-- Witness for C5: an unrecognized machine string passes through, and Windows
gets the .exe extension. -/
theorem c5_witness :
    normalizeMachine "RISCV64" = "riscv64" ∧ extensionFor "WINDOWS" = ".exe" := by
  constructor
  · exact c5_platform_normalization.2.2.2.2.2.2.2.1 "RISCV64"
      (by decide) (by decide) (by decide)
  · exact (c5_platform_normalization.2.2.2.2.2.2.2.2 "WINDOWS").2 (by decide)

/-- True when the trace creates some parent directory. -/
def hasMkdir (ops : List FileOp) : Bool :=
  ops.any fun op =>
    match op with
    | FileOp.mkdirParents _ => true
    | _ => false

/-- C7, counterexample: in the unsized fallback branch (no content-length) the
download writes the body directly and the trace holds no parent-directory
creation at all - mkdir happens only in the sized streaming branch - refuting
the claim that both branches create parent directories before writing. The
0o755 chmod does follow in both branches. -/
theorem c7_counterexample :
    download_and_install_cli (DlResponse.ok 0) "/home/user/.local/bin/tailwindcss-linux-x64-4.0.6" =
      Except.ok [FileOp.writeBytes "/home/user/.local/bin/tailwindcss-linux-x64-4.0.6",
        FileOp.chmod "/home/user/.local/bin/tailwindcss-linux-x64-4.0.6" 0o755] ∧
    (download_and_install_cli (DlResponse.ok 0)
        "/home/user/.local/bin/tailwindcss-linux-x64-4.0.6").map hasMkdir =
      Except.ok false :=
  ⟨rfl, rfl⟩

/-- C7, amended: when the server reports a nonzero content-length the download
creates the destination's parent directories, then opens and streams the file,
then sets mode 0o755; when the length is zero or absent it writes the body in
one shot without creating parent directories, and then sets mode 0o755. -/
theorem c7_download_amended (path : String) (len : Nat) (h : len ≠ 0) :
    download_and_install_cli (DlResponse.ok len) path =
      Except.ok [FileOp.mkdirParents (parentDir path), FileOp.openWrite path,
        FileOp.chmod path 0o755] ∧
    download_and_install_cli (DlResponse.ok 0) path =
      Except.ok [FileOp.writeBytes path, FileOp.chmod path 0o755] := by
  constructor
  · cases len with
    | zero => exact absurd rfl h
    | succ n => rfl
  · rfl

/-- Witness for the amended C7 at a concrete sized response. -/
theorem c7_witness :
    download_and_install_cli (DlResponse.ok 1048576) "/opt/bin/tailwindcss" =
      Except.ok [FileOp.mkdirParents (parentDir "/opt/bin/tailwindcss"),
        FileOp.openWrite "/opt/bin/tailwindcss", FileOp.chmod "/opt/bin/tailwindcss" 0o755] :=
  (c7_download_amended "/opt/bin/tailwindcss" 1048576 (by decide)).1

/-- C8: the source-CSS bootstrap writes only one of the two fixed templates,
only to the configured source-CSS path, and only when either the
overwrite-default policy applies and the file is missing, unreadable or holds
different content, or a custom path is used and no file exists yet; an
existing file at a custom path is never overwritten. -/
theorem c8_source_css_bootstrap (src : Option String) (daisy ow : Bool) (fs : FileState) :
    (∀ p content, create_standard_config src daisy ow fs = CssWrite.write p content →
      (content = DEFAULT_SOURCE_CSS ∨ content = DAISY_UI_SOURCE_CSS) ∧ src = some p ∧
      ((ow = true ∧ should_recreate_file fs content = true) ∨
       (ow = false ∧ fileExistsB fs = false))) ∧
    (ow = false → fileExistsB fs = true → create_standard_config src daisy ow fs = CssWrite.noWrite) := by
  cases src with
  | none =>
    exact ⟨fun p content hcontra => CssWrite.noConfusion hcontra, fun _ _ => rfl⟩
  | some p0 =>
    constructor
    · intro p content hw
      unfold create_standard_config at hw
      cases ow with
      | true =>
        cases daisy with
        | true =>
          simp only [if_true] at hw
          split at hw
          · rename_i hcond
            injection hw with hp hcontent
            subst hp
            subst hcontent
            exact ⟨Or.inr rfl, rfl, Or.inl ⟨rfl, hcond⟩⟩
          · exact CssWrite.noConfusion hw
        | false =>
          simp only [Bool.false_eq_true, if_false, if_true] at hw
          split at hw
          · rename_i hcond
            injection hw with hp hcontent
            subst hp
            subst hcontent
            exact ⟨Or.inl rfl, rfl, Or.inl ⟨rfl, hcond⟩⟩
          · exact CssWrite.noConfusion hw
      | false =>
        cases daisy with
        | true =>
          simp only [Bool.false_eq_true, if_false, if_true] at hw
          split at hw
          · rename_i hcond
            injection hw with hp hcontent
            subst hp
            subst hcontent
            refine ⟨Or.inr rfl, rfl, Or.inr ⟨rfl, ?_⟩⟩
            cases hfe : fileExistsB fs
            · rfl
            · rw [hfe] at hcond
              exact absurd hcond (by decide)
          · exact CssWrite.noConfusion hw
        | false =>
          simp only [Bool.false_eq_true, if_false] at hw
          split at hw
          · rename_i hcond
            injection hw with hp hcontent
            subst hp
            subst hcontent
            refine ⟨Or.inl rfl, rfl, Or.inr ⟨rfl, ?_⟩⟩
            cases hfe : fileExistsB fs
            · rfl
            · rw [hfe] at hcond
              exact absurd hcond (by decide)
          · exact CssWrite.noConfusion hw
    · intro how hex
      subst how
      unfold create_standard_config
      simp only [Bool.false_eq_true, if_false]
      rw [hex]
      rfl

/-- Witness for C8: a custom-path file that already exists is preserved. -/
theorem c8_witness :
    create_standard_config (some "/home/user/project/assets/css/input.css") false false
      (FileState.content "body {}") = CssWrite.noWrite :=
  (c8_source_css_bootstrap (some "/home/user/project/assets/css/input.css") false false
    (FileState.content "body {}")).2 rfl rfl

/-- One unfolding step of the monitor loop. -/
theorem monitorLoop_succ (sched : Nat → Option Int × Option Int) (fuel t : Nat) (sd : Bool) :
    monitorLoop sched (fuel + 1) t sd =
      if sd || bothExited (sched t) then (sd, t)
      else monitorLoop sched fuel (t + 1) (sd || anyNonzero (sched t)) := rfl

/-- Once shutdown is requested the monitor loop exits immediately. -/
theorem monitorLoop_sd_true (sched : Nat → Option Int × Option Int) :
    ∀ fuel t, monitorLoop sched fuel t true = (true, t) := by
  intro fuel t
  cases fuel with
  | zero => rfl
  | succ f => simp [monitorLoop]

/-- If some process shows a nonzero exit at step t0 + k while the pair is never
jointly dead up to that step, the monitor loop ends with shutdown requested. -/
theorem monitorLoop_reaches (sched : Nat → Option Int × Option Int) :
    ∀ k fuel t0, k < fuel →
      anyNonzero (sched (t0 + k)) = true →
      (∀ u, u ≤ k → bothExited (sched (t0 + u)) = false) →
      (monitorLoop sched fuel t0 false).1 = true := by
  intro k
  induction k with
  | zero =>
    intro fuel t0 hfuel hnz halive
    cases fuel with
    | zero => exact absurd hfuel (by omega)
    | succ f =>
      have hb : bothExited (sched t0) = false := by
        have h0 := halive 0 (Nat.le_refl 0)
        rwa [Nat.add_zero] at h0
      rw [Nat.add_zero] at hnz
      rw [monitorLoop_succ, Bool.false_or, hb, if_neg Bool.false_ne_true,
        Bool.false_or, hnz, monitorLoop_sd_true]
  | succ k ih =>
    intro fuel t0 hfuel hnz halive
    cases fuel with
    | zero => exact absurd hfuel (by omega)
    | succ f =>
      have hb : bothExited (sched t0) = false := by
        have h0 := halive 0 (Nat.zero_le (k + 1))
        rwa [Nat.add_zero] at h0
      rw [monitorLoop_succ, Bool.false_or, hb, if_neg Bool.false_ne_true, Bool.false_or]
      cases hnz0 : anyNonzero (sched t0) with
      | true => rw [monitorLoop_sd_true]
      | false =>
        apply ih f (t0 + 1) (by omega)
        · have harith : t0 + 1 + k = t0 + (k + 1) := by omega
          rw [harith]
          exact hnz
        · intro u hu
          have harith : t0 + 1 + u = t0 + (u + 1) := by omega
          rw [harith]
          exact halive (u + 1) (by omega)

/-- C9: whenever one supervised process exits nonzero at some step while the
other is still alive up to that step (and the observation window covers it),
the monitor loop ends with shutdown requested and hands whatever is alive at
exit to the cleanup pass; the cleanup trace is exactly the per-process teardown
of both processes, every still-alive process is first asked to terminate
gracefully, a process whose 5 second wait expires is force-killed and then
waited on unconditionally, already-exited processes are skipped, and the
teardown paths in which the process raised because it had already exited
produce ordinary traces (the exception is swallowed) - the whole run returns a
plain MonitorResult and cannot raise. -/
theorem c9_supervisor_teardown (sched : Nat → Option Int × Option Int)
    (fuel t : Nat) (c : Int) (b : TermBehavior × TermBehavior)
    (hfuel : t < fuel) (hc : c ≠ 0)
    (hexit : ((sched t).1 = some c ∧ ∀ u, u ≤ t → (sched u).2 = none) ∨
             ((sched t).2 = some c ∧ ∀ u, u ≤ t → (sched u).1 = none)) :
    (monitor_processes sched fuel b).shutdownRequested = true ∧
    (monitor_processes sched fuel b).cleanupOps =
      cleanupOne (sched (monitor_processes sched fuel b).exitTime).1 b.1 ++
      cleanupOne (sched (monitor_processes sched fuel b).exitTime).2 b.2 ∧
    (∀ tb, (cleanupOne none tb).head? = some ProcOp.terminate) ∧
    cleanupOne none TermBehavior.timeoutThenKill =
      [ProcOp.terminate, ProcOp.waitTimeout 5, ProcOp.kill, ProcOp.wait] ∧
    (∀ st : Option Int, ∀ tb, st.isSome = true → cleanupOne st tb = []) := by
  have hcne : (c != 0) = true := by rwa [bne_iff_ne]
  have hnz : anyNonzero (sched t) = true := by
    rcases hexit with ⟨h1, _⟩ | ⟨h1, _⟩
    · simp [anyNonzero, h1, hcne]
    · simp [anyNonzero, h1, hcne]
  have halive : ∀ u, u ≤ t → bothExited (sched u) = false := by
    intro u hu
    rcases hexit with ⟨_, h2⟩ | ⟨_, h2⟩
    · simp [bothExited, h2 u hu]
    · simp [bothExited, h2 u hu]
  refine ⟨?_, rfl, ?_, rfl, ?_⟩
  · show (monitorLoop sched fuel 0 false).1 = true
    apply monitorLoop_reaches sched t fuel 0 hfuel
    · rw [Nat.zero_add]
      exact hnz
    · intro u hu
      rw [Nat.zero_add]
      exact halive u hu
  · intro tb
    cases tb <;> rfl
  · intro st tb hst
    cases st with
    | none => exact absurd hst (by decide)
    | some code => rfl

/-- A concrete schedule: the first process exits with code 1 at step 2, the
second stays alive throughout. -/
def schedWatchFails (t : Nat) : Option Int × Option Int :=
  (if 2 ≤ t then some 1 else none, none)

/-- Witness for C9 at the concrete failing-watcher schedule. -/
theorem c9_witness :
    (monitor_processes schedWatchFails 5
      (TermBehavior.graceful, TermBehavior.timeoutThenKill)).shutdownRequested = true :=
  (c9_supervisor_teardown schedWatchFails 5 2 1
    (TermBehavior.graceful, TermBehavior.timeoutThenKill) (by decide) (by decide)
    (Or.inl ⟨by decide, fun u hu => rfl⟩)).1
